import Mathlib

/-!
Verification of the fast-ngrok tunnel multiplexing subsystem.

Shallow embedding of the server-side dispatcher (`src/server/tunnel-manager.ts`,
`src/server/index.ts`) and the client-side request handler
(`TunnelClient` in `src/cli/tunnel-client.ts`).

Conventions of the embedding:
* JS `Map`s keyed by string are association lists / record lists; `Map.set` on a
  fresh key appends, `Map.delete` filters, lookup finds the first match.
* Imperative side effects (resolving a promise, clearing a timer, sending a
  frame, closing a socket, writing a console line) are recorded as an explicit
  `Event` list returned next to the updated state.
* Byte buffers (`Uint8Array`) are `List Nat`.
* JS header records are `Headers := List (String × String)`; absent keys are
  `Option.none`; JS string truthiness (`""` is falsy) is the `truthy` predicate.
-/

namespace FastNgrok

abbrev Headers := List (String × String)

/-- First-match lookup in a header record, modelling `headers[k]` /
`response.headers.get(k)` (absent key gives `none`, JS `undefined`/`null`). -/
def lookupHeader (h : Headers) (k : String) : Option String :=
  match h with
  | [] => none
  | (k', v) :: rest => if k' = k then some v else lookupHeader rest k

/-- JS object key assignment `h[k] = v`: replace the first binding of `k`,
or append when `k` is absent (JS objects keep insertion order). -/
def setHeader (h : Headers) (k v : String) : Headers :=
  match h with
  | [] => [(k, v)]
  | (k', v') :: rest => if k' = k then (k, v) :: rest else (k', v') :: setHeader rest k v

/-- JS string truthiness of an optional header value: `undefined`, `null` and
`""` are falsy, every other string is truthy. -/
def truthy : Option String → Bool
  | none => false
  | some s => s != ""

/-- Does the character list start with the given pattern? -/
def listStartsWith : List Char → List Char → Bool
  | _, [] => true
  | [], _ :: _ => false
  | a :: as, b :: bs => a = b && listStartsWith as bs

/-- Does the pattern occur as a contiguous sublist? -/
def listContainsSub : List Char → List Char → Bool
  | [], pat => pat.isEmpty
  | hay@(_ :: rest), pat => listStartsWith hay pat || listContainsSub rest pat

/-- JS `String.prototype.includes`, on the underlying character list. -/
def strContains (s pat : String) : Bool :=
  listContainsSub s.data pat.data

/-- ASCII lower-casing of one character (JS `toLowerCase` on the ASCII header
values compared by the code). -/
def lowerChar (c : Char) : Char :=
  if 'A' ≤ c ∧ c ≤ 'Z' then Char.ofNat (c.toNat + 32) else c

/-- JS `String.prototype.toLowerCase` on ASCII strings. -/
def strLower (s : String) : String :=
  String.mk (s.data.map lowerChar)

/-- Whitespace as removed by JS `String.prototype.trim` (the ASCII cases). -/
def isWsChar (c : Char) : Bool :=
  c = ' ' || c = '\t' || c = '\n' || c = '\r'

/-- JS `String.prototype.trim` on the underlying character list. -/
def strTrim (s : String) : String :=
  String.mk (((s.data.dropWhile isWsChar).reverse.dropWhile isWsChar).reverse)

theorem lookupHeader_setHeader_self (h : Headers) (k v : String) :
    lookupHeader (setHeader h k v) k = some v := by
  induction h with
  | nil => simp [setHeader, lookupHeader]
  | cons p rest ih =>
    by_cases hk : p.1 = k
    · simp [setHeader, hk, lookupHeader]
    · simp [setHeader, hk, lookupHeader, ih]

theorem lookupHeader_setHeader_ne (h : Headers) (k v k' : String) (hne : k' ≠ k) :
    lookupHeader (setHeader h k v) k' = lookupHeader h k' := by
  induction h with
  | nil => simp [setHeader, lookupHeader, Ne.symm hne]
  | cons p rest ih =>
    by_cases hk : p.1 = k
    · simp [setHeader, hk, lookupHeader, Ne.symm hne]
    · simp [setHeader, hk, lookupHeader, ih]

/-! ## Wire protocol (src/shared/protocol.ts) -/

/-- Server → client control messages (the subset the embedded code emits). -/
inductive ServerMsg
  | http_request (requestId method path : String) (headers : Headers) (body : Option String)
  deriving DecidableEq, Repr

/-- Response body as assembled by the dispatcher: inline UTF-8 text
(`http_response`), a byte buffer (`http_response_binary` + frame), or a
streaming producer identified by its request id. -/
inductive RespBody
  | text (s : String)
  | bytes (data : List Nat)
  | stream (requestId : String)
  deriving DecidableEq, Repr

/-- The `TunnelResponse` record handed to a `PendingRequest.resolve`. -/
structure TunnelResponse where
  status : Nat
  headers : Headers
  body : RespBody
  deriving DecidableEq, Repr

/-- Client → server control messages (`ClientMessage` in protocol.ts),
restricted to the HTTP-response family that `handleResponse` dispatches on. -/
inductive ClientMsg
  | http_response (requestId : String) (status : Nat) (headers : Headers) (body : String)
  | http_response_binary (requestId : String) (status : Nat) (headers : Headers) (bodySize : Nat)
  | http_response_stream_start (requestId : String) (status : Nat) (headers : Headers)
      (totalSize : Option Nat)
  | http_response_stream_chunk (requestId : String) (chunkSize : Nat)
  | http_response_stream_end (requestId : String)
  | http_response_stream_err (requestId : String) (errMsg : String)
  deriving DecidableEq, Repr

/-! ## Server-side state (src/server/tunnel-manager.ts) -/

/-- `PendingRequest` minus its two closures and timer handle; the closures'
invocations and `clearTimeout` appear as `Event`s. -/
structure PendingReq where
  requestId : String
  startTime : Nat
  deriving DecidableEq, Repr

/-- The single per-tunnel `pendingBinaryHeader` slot contents. -/
structure BinHeader where
  requestId : String
  status : Nat
  headers : Headers
  deriving DecidableEq, Repr

/-- `ActiveStream` minus the controller handle (controller calls are events). -/
structure ActiveStream where
  requestId : String
  pendingChunkSize : Option Nat
  deriving DecidableEq, Repr

/-- `PendingWsUpgrade` minus closures and timer handle. -/
structure PendingWsUp where
  wsId : String
  deriving DecidableEq, Repr

/-- `ActiveBrowserWs`: the browser-side socket with its readyState (1 = open). -/
structure BrowserWs where
  wsId : String
  readyState : Nat
  deriving DecidableEq, Repr

/-- `ActiveTunnel`: one registered tunnel's state. `wsReadyState` is the
control connection's readyState (1 = WebSocket.OPEN); `pingTimerActive`
models a non-null `pingInterval`. -/
structure Tunnel where
  subdomain : String
  apiKey : String
  wsReadyState : Nat
  createdAt : Nat
  pendingRequests : List PendingReq
  pendingBinaryHeader : Option BinHeader
  activeStreams : List ActiveStream
  pingTimerActive : Bool
  pendingWsUpgrades : List PendingWsUp
  browserWebSockets : List BrowserWs
  pendingWsBinaryWsId : Option String
  deriving DecidableEq, Repr

/-- Observable side effects of the server-side handlers. -/
inductive Event
  | clearRequestTimeout (requestId : String)
  | resolvePublic (requestId : String) (resp : TunnelResponse)
  | rejectPublic (requestId : String) (errMsg : String)
  | respondPublic (requestId : String) (status : Nat) (body : String)
  | streamEnqueue (requestId : String) (data : List Nat)
  | streamClose (requestId : String)
  | streamAbort (requestId : String) (errMsg : String)
  | clearWsUpgradeTimeout (wsId : String)
  | rejectWsUpgrade (wsId : String) (errMsg : String)
  | closeBrowserWs (wsId : String) (code : Nat) (reason : String)
  | sendBrowserWs (wsId : String) (data : List Nat)
  | clearPingTimer
  | closeControlWs (code : Nat) (reason : String)
  | sendControl (msg : ServerMsg)
  | logLine (line : String)
  | warnLine (line : String)
  deriving DecidableEq, Repr

/-- Is the event a console warning? (`console.warn`). -/
def Event.isWarn : Event → Bool
  | .warnLine _ => true
  | _ => false

/-- Is the event any console output? (`console.log` or `console.warn`). -/
def Event.isLog : Event → Bool
  | .logLine _ => true
  | .warnLine _ => true
  | _ => false

/-- `tunnel.pendingRequests.get(rid)`: first entry with the given request id. -/
def findReq (l : List PendingReq) (rid : String) : Option PendingReq :=
  match l with
  | [] => none
  | p :: rest => if p.requestId = rid then some p else findReq rest rid

/-- `tunnel.pendingRequests.delete(rid)`. -/
def eraseReq (l : List PendingReq) (rid : String) : List PendingReq :=
  l.filter (fun p => p.requestId != rid)

/-- `tunnel.activeStreams.get(rid)`. -/
def findStream (l : List ActiveStream) (rid : String) : Option ActiveStream :=
  match l with
  | [] => none
  | s :: rest => if s.requestId = rid then some s else findStream rest rid

/-- `tunnel.activeStreams.delete(rid)`. -/
def eraseStream (l : List ActiveStream) (rid : String) : List ActiveStream :=
  l.filter (fun s => s.requestId != rid)

/-- In-place update `stream.pendingChunkSize = sz` for the stream keyed `rid`. -/
def setChunkSize (l : List ActiveStream) (rid : String) (sz : Option Nat) : List ActiveStream :=
  l.map (fun s => if s.requestId = rid then { s with pendingChunkSize := sz } else s)

/-- `tunnel.browserWebSockets.get(wsId)`. -/
def findBrowserWs (l : List BrowserWs) (w : String) : Option BrowserWs :=
  match l with
  | [] => none
  | b :: rest => if b.wsId = w then some b else findBrowserWs rest w

theorem findReq_eraseReq (l : List PendingReq) (rid : String) :
    findReq (eraseReq l rid) rid = none := by
  induction l with
  | nil => simp [eraseReq, findReq]
  | cons p rest ih =>
    by_cases h : p.requestId = rid
    · simpa [eraseReq, h] using ih
    · simpa [eraseReq, findReq, h] using ih

theorem findReq_append_fresh (l : List PendingReq) (p : PendingReq)
    (h : findReq l p.requestId = none) :
    findReq (l ++ [p]) p.requestId = some p := by
  induction l with
  | nil => simp [findReq]
  | cons q rest ih =>
    by_cases hq : q.requestId = p.requestId
    · simp [findReq, hq] at h
    · simp [findReq, hq] at h ⊢
      exact ih h

/-! ## TunnelManager (src/server/tunnel-manager.ts) -/

/-- `REQUEST_TIMEOUT` (ms). -/
def REQUEST_TIMEOUT : Nat := 30000

/-- `PING_INTERVAL` (ms). -/
def PING_INTERVAL : Nat := 20000

/-- The registry `tunnels : Map<string, ActiveTunnel>`. -/
abbrev Registry := List (String × Tunnel)

/-- `this.tunnels.get(subdomain)`. -/
def lookupTunnel (reg : Registry) (sub : String) : Option Tunnel :=
  match reg with
  | [] => none
  | (s, t) :: rest => if s = sub then some t else lookupTunnel rest sub

/-- `this.tunnels.delete(subdomain)`. -/
def eraseTunnel (reg : Registry) (sub : String) : Registry :=
  reg.filter (fun p => p.1 != sub)

theorem lookupTunnel_eraseTunnel (reg : Registry) (sub : String) :
    lookupTunnel (eraseTunnel reg sub) sub = none := by
  induction reg with
  | nil => simp [eraseTunnel, lookupTunnel]
  | cons p rest ih =>
    by_cases h : p.1 = sub
    · simpa [eraseTunnel, h] using ih
    · simpa [eraseTunnel, lookupTunnel, h] using ih

/-- Teardown effects of `TunnelManager.unregister` on one tunnel, in source
order: stop the ping interval if set; for each pending request clear its
timeout and reject it with `Error("Tunnel disconnected")`; error every active
stream's controller with the same message; for each pending WS upgrade clear
its timeout and reject it with `"Tunnel disconnected"`; close every browser
WebSocket with `(1001, "Tunnel disconnected")`; log the unregistration. -/
def unregisterTunnelEvents (t : Tunnel) : List Event :=
  (if t.pingTimerActive then [Event.clearPingTimer] else []) ++
  (t.pendingRequests.map fun p =>
    [Event.clearRequestTimeout p.requestId,
     Event.rejectPublic p.requestId "Tunnel disconnected"]).flatten ++
  (t.activeStreams.map fun s => Event.streamAbort s.requestId "Tunnel disconnected") ++
  (t.pendingWsUpgrades.map fun u =>
    [Event.clearWsUpgradeTimeout u.wsId,
     Event.rejectWsUpgrade u.wsId "Tunnel disconnected"]).flatten ++
  (t.browserWebSockets.map fun b => Event.closeBrowserWs b.wsId 1001 "Tunnel disconnected") ++
  [Event.logLine ("[tunnel] Unregistered: " ++ t.subdomain)]

/-- `TunnelManager.unregister(subdomain)`: when the subdomain is registered,
emit the full teardown and delete it from the map; otherwise do nothing. -/
def unregister (reg : Registry) (sub : String) : Registry × List Event :=
  match lookupTunnel reg sub with
  | some t => (eraseTunnel reg sub, unregisterTunnelEvents t)
  | none => (reg, [])

/-- `TunnelManager.handleResponse(subdomain, message)` specialised to one
tunnel's state (the registry lookup and missing-tunnel early return are done
by the caller). Returns the updated tunnel and the emitted effects. -/
def handleResponse (t : Tunnel) (msg : ClientMsg) : Tunnel × List Event :=
  match msg with
  | .http_response rid status headers body =>
    match findReq t.pendingRequests rid with
    | some _ =>
      ({ t with pendingRequests := eraseReq t.pendingRequests rid },
       [.clearRequestTimeout rid, .resolvePublic rid ⟨status, headers, .text body⟩])
    | none => (t, [])
  | .http_response_binary rid status headers _ =>
    ({ t with pendingBinaryHeader := some ⟨rid, status, headers⟩ }, [])
  | .http_response_stream_start rid status headers _ =>
    match findReq t.pendingRequests rid with
    | some _ =>
      ({ t with
          activeStreams := t.activeStreams ++ [⟨rid, none⟩],
          pendingRequests := eraseReq t.pendingRequests rid },
       [.clearRequestTimeout rid, .resolvePublic rid ⟨status, headers, .stream rid⟩])
    | none => (t, [])
  | .http_response_stream_chunk rid sz =>
    match findStream t.activeStreams rid with
    | some _ => ({ t with activeStreams := setChunkSize t.activeStreams rid (some sz) }, [])
    | none => (t, [])
  | .http_response_stream_end rid =>
    match findStream t.activeStreams rid with
    | some _ => ({ t with activeStreams := eraseStream t.activeStreams rid }, [.streamClose rid])
    | none => (t, [])
  | .http_response_stream_err rid e =>
    match findStream t.activeStreams rid with
    | some _ => ({ t with activeStreams := eraseStream t.activeStreams rid }, [.streamAbort rid e])
    | none => (t, [])

/-- The `for (const stream of activeStreams.values())` scan in
`handleBinaryMessage`: find the first stream whose `pendingChunkSize` is
non-null, set it back to null, and report its request id. -/
def clearFirstPendingChunk : List ActiveStream → Option (String × List ActiveStream)
  | [] => none
  | s :: rest =>
    if s.pendingChunkSize.isSome then
      some (s.requestId, { s with pendingChunkSize := none } :: rest)
    else
      match clearFirstPendingChunk rest with
      | some (rid, rest') => some (rid, s :: rest')
      | none => none

/-- `TunnelManager.handleBinaryMessage(subdomain, data)` specialised to one
tunnel's state. Slot order as in the source: (a) `pendingBinaryHeader`,
(b) the first active stream awaiting a chunk, (c) `pendingWsBinaryWsId`,
(d) fall through (the source emits no output in that case). The source's
catch around `controller.enqueue` (public reader already gone) is an external
failure not modelled here; enqueue is recorded as an event. -/
def handleBinaryMessage (t : Tunnel) (d : List Nat) : Tunnel × List Event :=
  match t.pendingBinaryHeader with
  | some header =>
    let t1 := { t with pendingBinaryHeader := none }
    match findReq t1.pendingRequests header.requestId with
    | some _ =>
      ({ t1 with pendingRequests := eraseReq t1.pendingRequests header.requestId },
       [.clearRequestTimeout header.requestId,
        .resolvePublic header.requestId ⟨header.status, header.headers, .bytes d⟩])
    | none => (t1, [])
  | none =>
    match clearFirstPendingChunk t.activeStreams with
    | some (rid, streams) =>
      ({ t with activeStreams := streams }, [.streamEnqueue rid d])
    | none =>
      match t.pendingWsBinaryWsId with
      | some wsId =>
        let t2 := { t with pendingWsBinaryWsId := none }
        match findBrowserWs t2.browserWebSockets wsId with
        | some b => if b.readyState = 1 then (t2, [.sendBrowserWs wsId d]) else (t2, [])
        | none => (t2, [])
      | none => (t, [])

/-- The synchronous part of the `Promise` executor in
`TunnelManager.proxyRequest`: register the `PendingRequest` (with its
30-second timer armed), then check the control connection's readyState; when
open send `http_request` on the wire, otherwise clear the timer, delete the
entry again and resolve the public response as `502 Tunnel disconnected`. -/
def proxyRequestSend (t : Tunnel) (rid method path : String) (headers : Headers)
    (body : Option String) (startTime : Nat) : Tunnel × List Event :=
  let entry : PendingReq := ⟨rid, startTime⟩
  let t1 := { t with pendingRequests := t.pendingRequests ++ [entry] }
  if t.wsReadyState = 1 then
    (t1, [.sendControl (.http_request rid method path headers body)])
  else
    ({ t1 with pendingRequests := eraseReq t1.pendingRequests rid },
     [.clearRequestTimeout rid, .respondPublic rid 502 "Tunnel disconnected"])

/-- The `setTimeout` callback armed in `proxyRequest`: when the 30-second
timer fires, delete the entry and resolve the public response as
`504 Gateway Timeout`. -/
def proxyRequestTimerFire (t : Tunnel) (rid : String) : Tunnel × List Event :=
  ({ t with pendingRequests := eraseReq t.pendingRequests rid },
   [.respondPublic rid 504 "Gateway Timeout"])

/-! ## Connect handler fragment (src/server/index.ts, /__tunnel__/connect) -/

/-- The `if (existingTunnel)` block of the connect-upgrade handler, entered
with a validated requested subdomain. When the subdomain has a live tunnel
and the presented key matches, close the old control connection with
`(1000, "Reconnecting")`, log, and unregister before the registration
proceeds; when the key differs, answer HTTP 409 `Subdomain already in use`
leaving everything untouched. Third component: `some (status, body)` is an
HTTP rejection, `none` means the upgrade proceeds. -/
def connectExistingCheck (reg : Registry) (sub apiKey : String) :
    Registry × List Event × Option (Nat × String) :=
  match lookupTunnel reg sub with
  | some existing =>
    if existing.apiKey = apiKey then
      let (reg', evs) := unregister reg sub
      (reg',
       Event.logLine ("[tunnel] Closing stale connection for " ++ sub ++ " (reconnect)") ::
       Event.closeControlWs 1000 "Reconnecting" :: evs,
       none)
    else
      (reg, [], some (409, "Subdomain already in use"))
  | none => (reg, [], none)

/-! ## Client request handler (TunnelClient, src/cli/tunnel-client.ts) -/

namespace Client

/-- `BINARY_THRESHOLD` (64 KiB). -/
def BINARY_THRESHOLD : Nat := 64 * 1024

/-- `STREAM_THRESHOLD` (256 KiB). -/
def STREAM_THRESHOLD : Nat := 256 * 1024

/-- `LARGE_FILE_THRESHOLD` (100 MiB). -/
def LARGE_FILE_THRESHOLD : Nat := 100 * 1024 * 1024

/-- `COMPRESS_THRESHOLD` (1 KiB). -/
def COMPRESS_THRESHOLD : Nat := 1024

/-- `TunnelClient.isSSE`: Content-Type contains `text/event-stream`, or the
nginx-style hint `X-Accel-Buffering: no` (case-insensitive value). -/
def isSSE (contentType : String) (headers : Headers) : Bool :=
  strContains contentType "text/event-stream" ||
  (match lookupHeader headers "x-accel-buffering" with
   | some v => strLower v = "no"
   | none => false)

/-- Decimal value of a digit list. -/
def digitsVal (l : List Char) : Nat :=
  l.foldl (fun a c => a * 10 + (c.toNat - 48)) 0

/-- JS `parseInt(s, 10)` on the strings appearing as `Content-Length` values:
reads the maximal leading run of decimal digits; no digits means `NaN`,
modelled as `none`. -/
def jsParseInt (s : String) : Option Nat :=
  let ds := s.data.takeWhile Char.isDigit
  if ds.isEmpty then none else some (digitsVal ds)

/-- `parseInt(response.headers.get("content-length") || "0", 10)`:
an absent header falls back to the string `"0"`. -/
def parseContentLength (h : Option String) : Option Nat :=
  jsParseInt (h.getD "0")

/-- `contentLength <= STREAM_THRESHOLD` with JS `NaN` (`none`) comparing false. -/
def isSmall : Option Nat → Bool
  | some n => n ≤ STREAM_THRESHOLD
  | none => false

/-- `contentLength > LARGE_FILE_THRESHOLD` with JS `NaN` comparing false. -/
def isLarge : Option Nat → Bool
  | some n => LARGE_FILE_THRESHOLD < n
  | none => false

/-- The response-handling mode picked by `TunnelClient.handleRequest`:
`sse` = `streamSSE` (stream immediately), `inline` = `sendBufferedResponse`
(buffer, optionally compress, send as `http_response`/`http_response_binary`),
`rawStream` = `streamResponse` (no buffering, no compression),
`compressedStream` = `sendCompressedStream` (buffer, compress, chunked stream). -/
inductive RespMode
  | sse
  | inline
  | rawStream
  | compressedStream
  deriving DecidableEq, Repr

/-- The mode decision of `handleRequest`: SSE first, regardless of size;
else small (`<= 256 KiB`) is buffered inline; else large (`> 100 MiB`) is
streamed raw; else medium is buffered, compressed and streamed. -/
def classifyResponse (contentLength : Option Nat) (contentType : String)
    (respHeaders : Headers) : RespMode :=
  if isSSE contentType respHeaders then .sse
  else if isSmall contentLength then .inline
  else if isLarge contentLength then .rawStream
  else .compressedStream

/-- `etag.replace(/^W\//, "")`: strip one leading weak-validator marker. -/
def stripWeak (s : String) : String :=
  if listStartsWith s.data ['W', '/'] then String.mk (s.data.drop 2) else s

/-- `normalizeEtag` from `handleRequest`: strip `W/`, then `.trim()`. -/
def normalizeEtag (s : String) : String :=
  strTrim (stripWeak s)

/-- The header set of the synthesized `304 Not Modified`: only `etag`, plus
`cache-control` and `vary` when the loopback response carried them. -/
def notModifiedHeaders (etg : String) (cacheControl vary : Option String) : Headers :=
  [("etag", etg)] ++
  (match cacheControl with | some c => [("cache-control", c)] | none => []) ++
  (match vary with | some v => [("vary", v)] | none => [])

/-- The loopback response as seen by `handleRequest` (status plus header
snapshot; body bytes are only consumed by the chosen mode). -/
structure LocalResponse where
  status : Nat
  headers : Headers
  deriving DecidableEq, Repr

/-- Outcome of the response phase of `handleRequest`: either the conditional
GET short-circuit fired and exactly one `http_response` message was sent, or
the response was classified into one of the four modes. -/
inductive HandleOutcome
  | notModified (msg : ClientMsg)
  | classified (mode : RespMode)
  deriving DecidableEq, Repr

/-- The response phase of `TunnelClient.handleRequest`: the proxy-level ETag
validation (a 304 short-circuit when the request carried `If-None-Match`, the
loopback answered `200` with an `ETag`, and the normalized tags agree),
followed by the size/SSE mode decision. -/
def handleLocalResponse (requestId : String) (reqHeaders : Headers)
    (resp : LocalResponse) : HandleOutcome :=
  let ifNoneMatch := lookupHeader reqHeaders "if-none-match"
  let responseEtag := lookupHeader resp.headers "etag"
  if truthy ifNoneMatch ∧ truthy responseEtag ∧ resp.status = 200 ∧
     normalizeEtag (ifNoneMatch.getD "") = normalizeEtag (responseEtag.getD "") then
    .notModified (.http_response requestId 304
      (notModifiedHeaders (responseEtag.getD "")
        (lookupHeader resp.headers "cache-control")
        (lookupHeader resp.headers "vary")) "")
  else
    .classified (classifyResponse
      (parseContentLength (lookupHeader resp.headers "content-length"))
      ((lookupHeader resp.headers "content-type").getD "")
      resp.headers)

/-- `TunnelClient.isCompressible`: the content type contains one of the
compressible prefixes/markers. -/
def isCompressible (contentType : String) : Bool :=
  ["text/", "application/json", "application/javascript", "application/xml",
   "application/xhtml", "image/svg"].any (fun t => strContains contentType t)

/-- The platform compression codecs called by `compressBody`
(`Bun.zstdCompressSync` with a level, brotli via `CompressionStream`,
`Bun.gzipSync` with a level). `none` models the codec throwing, which the
source's catch turns into a `null` result. -/
structure CompressEnv where
  zstd : Nat → List Nat → Option (List Nat)
  br : List Nat → Option (List Nat)
  gzip : Nat → List Nat → Option (List Nat)

/-- `TunnelClient.compressBody`: pick the first codec the request's
`Accept-Encoding` admits, in the fixed order zstd (level 3), brotli,
gzip (level 6); a throwing codec or no admissible codec gives `null`. -/
def compressBody (env : CompressEnv) (data : List Nat) (acceptEncoding : String) :
    Option (List Nat × String) :=
  if strContains acceptEncoding "zstd" then
    (env.zstd 3 data).map (fun c => (c, "zstd"))
  else if strContains acceptEncoding "br" then
    (env.br data).map (fun c => (c, "br"))
  else if strContains acceptEncoding "gzip" then
    (env.gzip 6 data).map (fun c => (c, "gzip"))
  else none

/-- The compression guard of `sendBufferedResponse`:
`response.status !== 304 && !contentEncoding && bodyBytes.length >=
COMPRESS_THRESHOLD && this.isCompressible(contentType)`. -/
def bufferedCompressGuard (status : Nat) (respHeaders : Headers) (bodyLen : Nat) : Bool :=
  status ≠ 304 &&
  !truthy (lookupHeader respHeaders "content-encoding") &&
  COMPRESS_THRESHOLD ≤ bodyLen &&
  isCompressible ((lookupHeader respHeaders "content-type").getD "")

/-- The compression step of `TunnelClient.sendBufferedResponse`: when the
guard holds and `compressBody` succeeds, the body is replaced by the
compressed bytes and `content-encoding` / `content-length` are updated;
otherwise headers and body are left unchanged. `acceptEncoding` is
`message.headers["accept-encoding"] || ""`. -/
def bufferedCompressPhase (env : CompressEnv) (reqHeaders : Headers) (status : Nat)
    (respHeaders : Headers) (bodyBytes : List Nat) : Headers × List Nat :=
  let acceptEncoding := (lookupHeader reqHeaders "accept-encoding").getD ""
  if bufferedCompressGuard status respHeaders bodyBytes.length then
    match compressBody env bodyBytes acceptEncoding with
    | some (c, enc) =>
      (setHeader (setHeader respHeaders "content-encoding" enc)
         "content-length" (toString c.length), c)
    | none => (respHeaders, bodyBytes)
  else (respHeaders, bodyBytes)

end Client

/-! ## Helper lemmas -/

theorem clearFirstPendingChunk_all_none (l : List ActiveStream)
    (h : ∀ s ∈ l, s.pendingChunkSize = none) :
    clearFirstPendingChunk l = none := by
  induction l with
  | nil => rfl
  | cons s rest ih =>
    have hs := h s (by simp)
    have hrest := ih (fun x hx => h x (by simp [hx]))
    simp [clearFirstPendingChunk, hs, hrest]

theorem clearFirstPendingChunk_first (pre : List ActiveStream) (s : ActiveStream)
    (post : List ActiveStream) (k : Nat)
    (hpre : ∀ x ∈ pre, x.pendingChunkSize = none)
    (hs : s.pendingChunkSize = some k) :
    clearFirstPendingChunk (pre ++ s :: post) =
      some (s.requestId, pre ++ { s with pendingChunkSize := none } :: post) := by
  induction pre with
  | nil => simp [clearFirstPendingChunk, hs]
  | cons x rest ih =>
    have hx := hpre x (by simp)
    have hrest := ih (fun y hy => hpre y (by simp [hy]))
    simp [clearFirstPendingChunk, hx, hrest]

theorem eraseReq_append_fresh (l : List PendingReq) (rid : String) (st : Nat)
    (h : findReq l rid = none) :
    eraseReq (l ++ [⟨rid, st⟩]) rid = l := by
  induction l with
  | nil => simp [eraseReq]
  | cons p rest ih =>
    by_cases hp : p.requestId = rid
    · simp [findReq, hp] at h
    · simp [findReq, hp] at h
      simp [eraseReq, hp] at ih ⊢
      exact ih h

/-! ## Sample states used by witnesses and counterexamples -/

/-- A registered tunnel with every table empty and all slots idle. -/
def baseTunnel : Tunnel :=
  { subdomain := "app", apiKey := "k", wsReadyState := 1, createdAt := 0,
    pendingRequests := [], pendingBinaryHeader := none, activeStreams := [],
    pingTimerActive := true, pendingWsUpgrades := [], browserWebSockets := [],
    pendingWsBinaryWsId := none }

/-- A tunnel with one entry in each table. -/
def busyTunnel : Tunnel :=
  { baseTunnel with
    pendingRequests := [⟨"r1", 0⟩],
    activeStreams := [⟨"s1", none⟩],
    pendingWsUpgrades := [⟨"u1"⟩],
    browserWebSockets := [⟨"w1", 1⟩] }

/-- A one-tunnel registry. -/
def sampleRegistry : Registry := [("app", busyTunnel)]

/-! ## C1: binary frame slot consultation order -/

/-- C1 counterexample: with all three announcement slots empty, an incoming
binary frame is dropped with NO emitted effect at all — in particular no
warning is logged, contradicting the claim's "dropped with a warning"
(`handleBinaryMessage` contains no console call on this path). -/
theorem C1_drop_without_warning_counterexample :
    handleBinaryMessage baseTunnel [7] = (baseTunnel, []) ∧
    ((handleBinaryMessage baseTunnel [7]).2.any Event.isWarn) = false := by
  decide

/-- C1 (amended): for every tunnel and binary frame, `handleBinaryMessage`
consults the slots in the fixed order (a) `pendingBinaryHeader`, completing
and removing the matching `PendingRequest` with the frame as body; else
(b) the unique `ActiveStream` whose `pendingChunkSize` is non-null, enqueueing
the frame and resetting `pendingChunkSize` to null; else (c)
`pendingWsBinaryWsId`, forwarding to that browser WebSocket and clearing the
slot; else (d) the frame is dropped silently — no warning is logged. At most
one slot is consumed per frame (each case leaves the other slots unchanged). -/
theorem C1_binary_frame_slot_order (t : Tunnel) (d : List Nat) :
    (∀ h, t.pendingBinaryHeader = some h →
      (handleBinaryMessage t d).1.pendingBinaryHeader = none ∧
      (handleBinaryMessage t d).1.activeStreams = t.activeStreams ∧
      (handleBinaryMessage t d).1.pendingWsBinaryWsId = t.pendingWsBinaryWsId ∧
      (∀ p, findReq t.pendingRequests h.requestId = some p →
        (handleBinaryMessage t d).1.pendingRequests = eraseReq t.pendingRequests h.requestId ∧
        (handleBinaryMessage t d).2 =
          [.clearRequestTimeout h.requestId,
           .resolvePublic h.requestId ⟨h.status, h.headers, .bytes d⟩])) ∧
    (t.pendingBinaryHeader = none →
      ∀ pre s post k, t.activeStreams = pre ++ s :: post →
        s.pendingChunkSize = some k →
        (∀ x ∈ pre, x.pendingChunkSize = none) →
        handleBinaryMessage t d =
          ({ t with activeStreams := pre ++ { s with pendingChunkSize := none } :: post },
           [.streamEnqueue s.requestId d])) ∧
    (t.pendingBinaryHeader = none →
      (∀ x ∈ t.activeStreams, x.pendingChunkSize = none) →
      ∀ w, t.pendingWsBinaryWsId = some w →
        (handleBinaryMessage t d).1 = { t with pendingWsBinaryWsId := none } ∧
        (∀ b, findBrowserWs t.browserWebSockets w = some b → b.readyState = 1 →
          (handleBinaryMessage t d).2 = [.sendBrowserWs w d])) ∧
    (t.pendingBinaryHeader = none →
      (∀ x ∈ t.activeStreams, x.pendingChunkSize = none) →
      t.pendingWsBinaryWsId = none →
      handleBinaryMessage t d = (t, [])) := by
  refine ⟨?_, ?_, ?_, ?_⟩
  · intro h hh
    cases hf : findReq t.pendingRequests h.requestId with
    | some p => simp [handleBinaryMessage, hh, hf, eraseReq]
    | none => simp [handleBinaryMessage, hh, hf]
  · intro h0 pre s post k hst hs hpre
    simp [handleBinaryMessage, h0, hst, clearFirstPendingChunk_first pre s post k hpre hs]
  · intro h0 hall w hw
    have hcl := clearFirstPendingChunk_all_none t.activeStreams hall
    cases hb : findBrowserWs t.browserWebSockets w with
    | some b =>
      by_cases hr : b.readyState = 1
      · simp [handleBinaryMessage, h0, hcl, hw, hb, hr]
      · simp [handleBinaryMessage, h0, hcl, hw, hb, hr]
    | none => simp [handleBinaryMessage, h0, hcl, hw, hb]
  · intro h0 hall hw
    simp [handleBinaryMessage, h0, clearFirstPendingChunk_all_none t.activeStreams hall, hw]

/-- C1 witness: concrete run of the (b) case — a frame routed to the unique
stream awaiting a chunk — via `C1_binary_frame_slot_order`. -/
theorem C1_binary_frame_slot_order_witness :
    handleBinaryMessage { baseTunnel with activeStreams := [⟨"s1", some 3⟩] } [9] =
      ({ baseTunnel with activeStreams := [⟨"s1", none⟩] },
       [Event.streamEnqueue "s1" [9]]) := by
  have h := (C1_binary_frame_slot_order
      { baseTunnel with activeStreams := [⟨"s1", some 3⟩] } [9]).2.1
    rfl [] ⟨"s1", some 3⟩ [] 3 rfl rfl (by intro x hx; cases hx)
  simpa using h

/-! ## C9: double http_response_binary announcement -/

/-- C9 counterexample: a second `http_response_binary` arriving while
`pendingBinaryHeader` is occupied overwrites the slot with the second header
but emits NO effect at all — in particular nothing is logged, contradicting
the claim's "logs the protocol violation" (`handleResponse` contains no
console call). -/
theorem C9_double_header_counterexample :
    handleResponse { baseTunnel with pendingBinaryHeader := some ⟨"r1", 200, []⟩ }
        (.http_response_binary "r2" 201 [] 5) =
      ({ baseTunnel with pendingBinaryHeader := some ⟨"r2", 201, []⟩ }, []) ∧
    ((handleResponse { baseTunnel with pendingBinaryHeader := some ⟨"r1", 200, []⟩ }
        (.http_response_binary "r2" 201 [] 5)).2.any Event.isLog) = false := by
  decide

/-- C9 (amended): when an `http_response_binary` message arrives while
`pendingBinaryHeader` is already occupied, the receiver discards the first
header — the slot afterwards holds exactly the second message's
requestId/status/headers — silently: no log is emitted and no other tunnel
state changes. -/
theorem C9_double_header_overwrite (t : Tunnel) (h : BinHeader) (rid : String)
    (st : Nat) (hdrs : Headers) (n : Nat)
    (_hocc : t.pendingBinaryHeader = some h) :
    handleResponse t (.http_response_binary rid st hdrs n) =
      ({ t with pendingBinaryHeader := some ⟨rid, st, hdrs⟩ }, []) := by
  simp [handleResponse]

/-- C9 witness: concrete overwrite via `C9_double_header_overwrite`. -/
theorem C9_double_header_overwrite_witness :
    handleResponse { baseTunnel with pendingBinaryHeader := some ⟨"a", 200, []⟩ }
        (.http_response_binary "b" 500 [("x", "y")] 3) =
      ({ baseTunnel with pendingBinaryHeader := some ⟨"b", 500, [("x", "y")]⟩ }, []) := by
  exact C9_double_header_overwrite _ ⟨"a", 200, []⟩ "b" 500 [("x", "y")] 3 rfl

/-! ## C10: stale http_response_binary header effect -/

/-- C10: an `http_response_binary` whose requestId matches no
`PendingRequest` is not a state-preserving no-op: `handleResponse` still sets
`pendingBinaryHeader` (all other tunnel state unchanged, no effects), and the
next binary frame consumes and clears that slot and is then discarded without
resolving any request — it is not matched against a waiting stream chunk or
the pending WS-binary slot. -/
theorem C10_stale_binary_header (t : Tunnel) (rid : String) (st : Nat)
    (hdrs : Headers) (n : Nat) (d : List Nat)
    (hfresh : findReq t.pendingRequests rid = none) :
    handleResponse t (.http_response_binary rid st hdrs n) =
      ({ t with pendingBinaryHeader := some ⟨rid, st, hdrs⟩ }, []) ∧
    handleBinaryMessage { t with pendingBinaryHeader := some ⟨rid, st, hdrs⟩ } d =
      ({ t with pendingBinaryHeader := none }, []) := by
  constructor
  · simp [handleResponse]
  · simp [handleBinaryMessage, hfresh]

/-- C10 witness: concrete run via `C10_stale_binary_header`, on a tunnel that
even has a stream awaiting a chunk and a pending WS-binary slot — the stale
frame still goes to (and only to) the stale header slot. -/
theorem C10_stale_binary_header_witness :
    handleBinaryMessage
      { baseTunnel with
          pendingBinaryHeader := some ⟨"r9", 200, []⟩,
          activeStreams := [⟨"s1", some 4⟩],
          pendingWsBinaryWsId := some "w1" } [1, 2] =
      ({ baseTunnel with
          pendingBinaryHeader := none,
          activeStreams := [⟨"s1", some 4⟩],
          pendingWsBinaryWsId := some "w1" }, []) := by
  have h := (C10_stale_binary_header
    { baseTunnel with
        activeStreams := [⟨"s1", some 4⟩],
        pendingWsBinaryWsId := some "w1" }
    "r9" 200 [] 0 [1, 2] rfl).2
  simpa using h

/-! ## C2: unregister teardown -/

/-- C2 counterexample: the teardown messages carry the string
`"Tunnel disconnected"` (capital T, as written in `tunnel-manager.ts`), not
the claim's quoted `"tunnel disconnected"` — observable, since the rejection
message becomes the body of the public 502 response and the browser-WS close
reason. At a concrete registry, no event carries the lowercase string. -/
theorem C2_unregister_message_counterexample :
    Event.rejectPublic "r1" "tunnel disconnected" ∉ (unregister sampleRegistry "app").2 ∧
    Event.rejectPublic "r1" "Tunnel disconnected" ∈ (unregister sampleRegistry "app").2 ∧
    Event.closeBrowserWs "w1" 1001 "tunnel disconnected" ∉ (unregister sampleRegistry "app").2 ∧
    Event.closeBrowserWs "w1" 1001 "Tunnel disconnected" ∈ (unregister sampleRegistry "app").2 := by
  decide

/-- C2 (amended): for every registered tunnel, `unregister(subdomain)`
performs the full teardown: it cancels the ping timer (when armed), rejects
every `PendingRequest` (clearing its timer) with the error
`"Tunnel disconnected"`, errors every `ActiveStream`'s controller with the
same error, rejects every `PendingWsUpgrade` with it, closes every browser
WebSocket with code 1001 and reason `"Tunnel disconnected"`, and removes the
tunnel from the registry map, so that afterwards `has(subdomain)` is false. -/
theorem C2_unregister_teardown (reg : Registry) (sub : String) (t : Tunnel)
    (hreg : lookupTunnel reg sub = some t) :
    lookupTunnel (unregister reg sub).1 sub = none ∧
    (t.pingTimerActive → Event.clearPingTimer ∈ (unregister reg sub).2) ∧
    (∀ p ∈ t.pendingRequests,
      Event.clearRequestTimeout p.requestId ∈ (unregister reg sub).2 ∧
      Event.rejectPublic p.requestId "Tunnel disconnected" ∈ (unregister reg sub).2) ∧
    (∀ s ∈ t.activeStreams,
      Event.streamAbort s.requestId "Tunnel disconnected" ∈ (unregister reg sub).2) ∧
    (∀ u ∈ t.pendingWsUpgrades,
      Event.clearWsUpgradeTimeout u.wsId ∈ (unregister reg sub).2 ∧
      Event.rejectWsUpgrade u.wsId "Tunnel disconnected" ∈ (unregister reg sub).2) ∧
    (∀ b ∈ t.browserWebSockets,
      Event.closeBrowserWs b.wsId 1001 "Tunnel disconnected" ∈ (unregister reg sub).2) := by
  refine ⟨?_, ?_, ?_, ?_, ?_, ?_⟩
  · simp [unregister, hreg, lookupTunnel_eraseTunnel]
  · intro hping
    simp [unregister, hreg, unregisterTunnelEvents, hping]
  · intro p hp
    constructor <;>
      · simp [unregister, hreg, unregisterTunnelEvents, List.mem_flatten]
        exact ⟨p, hp, rfl⟩
  · intro s hs
    simp [unregister, hreg, unregisterTunnelEvents, List.mem_flatten]
    exact ⟨s, hs, rfl⟩
  · intro u hu
    constructor <;>
      · simp [unregister, hreg, unregisterTunnelEvents, List.mem_flatten]
        exact ⟨u, hu, rfl⟩
  · intro b hb
    simp [unregister, hreg, unregisterTunnelEvents, List.mem_flatten]
    exact ⟨b, hb, rfl⟩

/-- C2 witness: concrete teardown via `C2_unregister_teardown`. -/
theorem C2_unregister_teardown_witness :
    lookupTunnel (unregister sampleRegistry "app").1 "app" = none ∧
    Event.rejectPublic "r1" "Tunnel disconnected" ∈ (unregister sampleRegistry "app").2 ∧
    Event.closeBrowserWs "w1" 1001 "Tunnel disconnected" ∈ (unregister sampleRegistry "app").2 :=
  ⟨(C2_unregister_teardown sampleRegistry "app" busyTunnel rfl).1,
   ((C2_unregister_teardown sampleRegistry "app" busyTunnel rfl).2.2.1
      ⟨"r1", 0⟩ (by decide)).2,
   (C2_unregister_teardown sampleRegistry "app" busyTunnel rfl).2.2.2.2.2
      ⟨"w1", 1⟩ (by decide)⟩

/-! ## C4: proxyRequest timeout and disconnected-send -/

/-- C4: every proxied request registers a `PendingRequest` guarded by the
30-second `REQUEST_TIMEOUT` timer; when the timer fires the entry is removed
and the public response resolves as `504 Gateway Timeout`; when at send time
the control connection is not open (readyState ≠ 1), the timer is cleared,
the entry is removed, and the public response resolves as
`502 Tunnel disconnected` with nothing sent on the wire; when the connection
is open, `http_request` is sent and the entry remains registered. -/
theorem C4_proxy_timeout_and_disconnect (t : Tunnel) (rid method path : String)
    (headers : Headers) (body : Option String) (st : Nat) :
    REQUEST_TIMEOUT = 30000 ∧
    (findReq (proxyRequestTimerFire t rid).1.pendingRequests rid = none ∧
     (proxyRequestTimerFire t rid).2 = [Event.respondPublic rid 504 "Gateway Timeout"]) ∧
    (t.wsReadyState ≠ 1 →
      findReq (proxyRequestSend t rid method path headers body st).1.pendingRequests rid
          = none ∧
      (findReq t.pendingRequests rid = none →
        (proxyRequestSend t rid method path headers body st).1.pendingRequests
          = t.pendingRequests) ∧
      (proxyRequestSend t rid method path headers body st).2 =
        [Event.clearRequestTimeout rid, Event.respondPublic rid 502 "Tunnel disconnected"]) ∧
    (t.wsReadyState = 1 →
      (proxyRequestSend t rid method path headers body st).2 =
        [Event.sendControl (.http_request rid method path headers body)] ∧
      (findReq t.pendingRequests rid = none →
        findReq (proxyRequestSend t rid method path headers body st).1.pendingRequests rid
          = some ⟨rid, st⟩)) := by
  refine ⟨rfl, ⟨?_, rfl⟩, ?_, ?_⟩
  · simp [proxyRequestTimerFire, findReq_eraseReq]
  · intro hw
    refine ⟨?_, ?_, ?_⟩
    · simp [proxyRequestSend, hw, findReq_eraseReq]
    · intro hfresh
      simp [proxyRequestSend, hw, eraseReq_append_fresh _ _ st hfresh]
    · simp [proxyRequestSend, hw]
  · intro hw
    refine ⟨by simp [proxyRequestSend, hw], ?_⟩
    intro hfresh
    simp [proxyRequestSend, hw]
    exact findReq_append_fresh _ ⟨rid, st⟩ hfresh

/-- C4 witness: concrete closed-connection send and timer expiry via
`C4_proxy_timeout_and_disconnect`. -/
theorem C4_proxy_timeout_and_disconnect_witness :
    (proxyRequestSend { baseTunnel with wsReadyState := 3 } "r1" "GET" "/" [] none 0).2 =
      [Event.clearRequestTimeout "r1", Event.respondPublic "r1" 502 "Tunnel disconnected"] ∧
    (proxyRequestTimerFire baseTunnel "r1").2 =
      [Event.respondPublic "r1" 504 "Gateway Timeout"] :=
  ⟨((C4_proxy_timeout_and_disconnect { baseTunnel with wsReadyState := 3 }
      "r1" "GET" "/" [] none 0).2.2.1 (by decide)).2.2,
   (C4_proxy_timeout_and_disconnect baseTunnel "r1" "GET" "/" [] none 0).2.1.2⟩

/-! ## C5: http_response_stream_start dispatch -/

/-- C5: an `http_response_stream_start` whose requestId matches a
`PendingRequest` clears that request's timeout timer, removes the entry,
creates an `ActiveStream` for the requestId with `pendingChunkSize` null, and
resolves the public response with a streaming body carrying the message's
status and headers; when no `PendingRequest` matches, the message has no
effect. -/
theorem C5_stream_start_dispatch (t : Tunnel) (rid : String) (st : Nat)
    (hdrs : Headers) (tsz : Option Nat) :
    (∀ p, findReq t.pendingRequests rid = some p →
      handleResponse t (.http_response_stream_start rid st hdrs tsz) =
        ({ t with
            activeStreams := t.activeStreams ++ [⟨rid, none⟩],
            pendingRequests := eraseReq t.pendingRequests rid },
         [Event.clearRequestTimeout rid,
          Event.resolvePublic rid ⟨st, hdrs, RespBody.stream rid⟩])) ∧
    (findReq t.pendingRequests rid = none →
      handleResponse t (.http_response_stream_start rid st hdrs tsz) = (t, [])) := by
  constructor
  · intro p hp
    simp [handleResponse, hp]
  · intro hp
    simp [handleResponse, hp]

/-- C5 witness: concrete stream-start dispatch via `C5_stream_start_dispatch`. -/
theorem C5_stream_start_dispatch_witness :
    handleResponse { baseTunnel with pendingRequests := [⟨"r1", 0⟩] }
        (.http_response_stream_start "r1" 200 [("content-type", "text/plain")] none) =
      ({ baseTunnel with pendingRequests := [], activeStreams := [⟨"r1", none⟩] },
       [Event.clearRequestTimeout "r1",
        Event.resolvePublic "r1" ⟨200, [("content-type", "text/plain")], RespBody.stream "r1"⟩]) := by
  have h := (C5_stream_start_dispatch { baseTunnel with pendingRequests := [⟨"r1", 0⟩] }
    "r1" 200 [("content-type", "text/plain")] none).1 ⟨"r1", 0⟩ rfl
  simpa [eraseReq] using h

/-! ## C7: reconnect eviction vs 409 -/

/-- C7: for a tunnel-connect upgrade naming a subdomain that already has a
live tunnel: if the presented API key equals the existing tunnel's key, the
existing control connection is closed with code 1000 and reason
`"Reconnecting"` and the old tunnel is unregistered (the subdomain is gone
from the registry) before the new registration proceeds (no HTTP rejection);
if the keys differ, the upgrade is rejected with HTTP 409 and the registry is
left unchanged with no effects. -/
theorem C7_reconnect_eviction (reg : Registry) (sub apiKey : String) (ex : Tunnel)
    (hreg : lookupTunnel reg sub = some ex) :
    (ex.apiKey = apiKey →
      (connectExistingCheck reg sub apiKey).2.2 = none ∧
      Event.closeControlWs 1000 "Reconnecting" ∈ (connectExistingCheck reg sub apiKey).2.1 ∧
      (connectExistingCheck reg sub apiKey).2.1 =
        Event.logLine ("[tunnel] Closing stale connection for " ++ sub ++ " (reconnect)") ::
        Event.closeControlWs 1000 "Reconnecting" :: (unregister reg sub).2 ∧
      lookupTunnel (connectExistingCheck reg sub apiKey).1 sub = none) ∧
    (ex.apiKey ≠ apiKey →
      connectExistingCheck reg sub apiKey = (reg, [], some (409, "Subdomain already in use"))) := by
  constructor
  · intro hk
    refine ⟨?_, ?_, ?_, ?_⟩ <;>
      simp [connectExistingCheck, hreg, hk, unregister, lookupTunnel_eraseTunnel]
  · intro hk
    simp [connectExistingCheck, hreg, hk]

/-- C7 witness: concrete same-key eviction and different-key 409 via
`C7_reconnect_eviction`. -/
theorem C7_reconnect_eviction_witness :
    (connectExistingCheck sampleRegistry "app" "k").2.2 = none ∧
    Event.closeControlWs 1000 "Reconnecting" ∈ (connectExistingCheck sampleRegistry "app" "k").2.1 ∧
    lookupTunnel (connectExistingCheck sampleRegistry "app" "k").1 "app" = none ∧
    connectExistingCheck sampleRegistry "app" "other" =
      (sampleRegistry, [], some (409, "Subdomain already in use")) :=
  ⟨((C7_reconnect_eviction sampleRegistry "app" "k" busyTunnel rfl).1 (by decide)).1,
   ((C7_reconnect_eviction sampleRegistry "app" "k" busyTunnel rfl).1 (by decide)).2.1,
   ((C7_reconnect_eviction sampleRegistry "app" "k" busyTunnel rfl).1 (by decide)).2.2.2,
   (C7_reconnect_eviction sampleRegistry "app" "other" busyTunnel rfl).2 (by decide)⟩

/-! ## C3: client response-mode classification -/

/-- C3: in the client request handler, for a non-SSE loopback response the
parsed Content-Length (defaulting to 0 when the header is absent) selects the
mode with inclusive boundaries: at most 256 KiB buffers and sends inline
(`sendBufferedResponse`); above 256 KiB and at most 100 MiB buffers,
compresses and streams (`sendCompressedStream`); above 100 MiB streams raw
without buffering or compression (`streamResponse`). An SSE response
(Content-Type contains `text/event-stream`, or `X-Accel-Buffering: no`) is
streamed immediately regardless of its Content-Length. -/
theorem C3_response_mode_boundaries (ct : String) (hdrs : Headers) (n : Nat) :
    Client.parseContentLength none = some 0 ∧
    Client.STREAM_THRESHOLD = 262144 ∧
    Client.LARGE_FILE_THRESHOLD = 104857600 ∧
    (Client.isSSE ct hdrs = true →
      ∀ cl, Client.classifyResponse cl ct hdrs = Client.RespMode.sse) ∧
    (Client.isSSE ct hdrs = false →
      (n ≤ 262144 →
        Client.classifyResponse (some n) ct hdrs = Client.RespMode.inline) ∧
      (262144 < n → n ≤ 104857600 →
        Client.classifyResponse (some n) ct hdrs = Client.RespMode.compressedStream) ∧
      (104857600 < n →
        Client.classifyResponse (some n) ct hdrs = Client.RespMode.rawStream)) := by
  refine ⟨rfl, rfl, rfl, ?_, ?_⟩
  · intro h cl
    simp [Client.classifyResponse, h]
  · intro h
    refine ⟨?_, ?_, ?_⟩
    · intro h1
      simp [Client.classifyResponse, Client.isSmall, Client.STREAM_THRESHOLD, h, h1]
    · intro h1 h2
      have hs : ¬ (n ≤ Client.STREAM_THRESHOLD) := by
        simp [Client.STREAM_THRESHOLD]; omega
      have hl : ¬ (Client.LARGE_FILE_THRESHOLD < n) := by
        simp [Client.LARGE_FILE_THRESHOLD]; omega
      simp [Client.classifyResponse, Client.isSmall, Client.isLarge, h, hs, hl]
    · intro h1
      have hs : ¬ (n ≤ Client.STREAM_THRESHOLD) := by
        simp [Client.STREAM_THRESHOLD]; omega
      have hl : Client.LARGE_FILE_THRESHOLD < n := by
        simp [Client.LARGE_FILE_THRESHOLD]; omega
      simp [Client.classifyResponse, Client.isSmall, Client.isLarge, h, hs, hl]

/-- C3 witness: the boundary values 256 KiB and 100 MiB, plus SSE precedence
over a 200 MiB Content-Length, via `C3_response_mode_boundaries`. -/
theorem C3_response_mode_boundaries_witness :
    Client.classifyResponse (some 262144) "application/octet-stream" []
      = Client.RespMode.inline ∧
    Client.classifyResponse (some 262145) "application/octet-stream" []
      = Client.RespMode.compressedStream ∧
    Client.classifyResponse (some 104857600) "application/octet-stream" []
      = Client.RespMode.compressedStream ∧
    Client.classifyResponse (some 104857601) "application/octet-stream" []
      = Client.RespMode.rawStream ∧
    Client.classifyResponse (some 209715200) "text/event-stream" []
      = Client.RespMode.sse :=
  ⟨((C3_response_mode_boundaries "application/octet-stream" [] 262144).2.2.2.2
      (by decide)).1 (by decide),
   ((C3_response_mode_boundaries "application/octet-stream" [] 262145).2.2.2.2
      (by decide)).2.1 (by decide) (by decide),
   ((C3_response_mode_boundaries "application/octet-stream" [] 104857600).2.2.2.2
      (by decide)).2.1 (by decide) (by decide),
   ((C3_response_mode_boundaries "application/octet-stream" [] 104857601).2.2.2.2
      (by decide)).2.2 (by decide),
   (C3_response_mode_boundaries "text/event-stream" [] 0).2.2.2.1
      (by decide) (some 209715200)⟩

/-! ## C6: buffered-path compression policy -/

/-- C6: in the client's buffered (inline) path, compression is attempted
exactly when status ≠ 304, the response carries no content-encoding, the body
is at least `COMPRESS_THRESHOLD` = 1024 bytes, and the content type is
compressible; `compressBody` picks the codec by the fixed preference zstd
(level 3), then brotli, then gzip (level 6) against the request's
Accept-Encoding; on success the body is replaced and `content-encoding` /
`content-length` updated, while a compression failure (or a skipped attempt,
independently of the codecs) leaves headers and body unchanged. -/
theorem C6_buffered_compression (env : Client.CompressEnv) (reqHdrs : Headers)
    (status : Nat) (respHdrs : Headers) (body : List Nat) :
    Client.COMPRESS_THRESHOLD = 1024 ∧
    (∀ d ae, strContains ae "zstd" = true →
      Client.compressBody env d ae = (env.zstd 3 d).map (fun c => (c, "zstd"))) ∧
    (∀ d ae, strContains ae "zstd" = false → strContains ae "br" = true →
      Client.compressBody env d ae = (env.br d).map (fun c => (c, "br"))) ∧
    (∀ d ae, strContains ae "zstd" = false → strContains ae "br" = false →
      strContains ae "gzip" = true →
      Client.compressBody env d ae = (env.gzip 6 d).map (fun c => (c, "gzip"))) ∧
    (∀ d ae, strContains ae "zstd" = false → strContains ae "br" = false →
      strContains ae "gzip" = false → Client.compressBody env d ae = none) ∧
    (Client.bufferedCompressGuard status respHdrs body.length = true ↔
      status ≠ 304 ∧
      truthy (lookupHeader respHdrs "content-encoding") = false ∧
      1024 ≤ body.length ∧
      Client.isCompressible ((lookupHeader respHdrs "content-type").getD "") = true) ∧
    (Client.bufferedCompressGuard status respHdrs body.length = true →
      ∀ c enc,
        Client.compressBody env body ((lookupHeader reqHdrs "accept-encoding").getD "")
            = some (c, enc) →
        Client.bufferedCompressPhase env reqHdrs status respHdrs body =
          (setHeader (setHeader respHdrs "content-encoding" enc)
             "content-length" (toString c.length), c) ∧
        lookupHeader (Client.bufferedCompressPhase env reqHdrs status respHdrs body).1
            "content-encoding" = some enc ∧
        lookupHeader (Client.bufferedCompressPhase env reqHdrs status respHdrs body).1
            "content-length" = some (toString c.length)) ∧
    (Client.bufferedCompressGuard status respHdrs body.length = true →
      Client.compressBody env body ((lookupHeader reqHdrs "accept-encoding").getD "") = none →
      Client.bufferedCompressPhase env reqHdrs status respHdrs body = (respHdrs, body)) ∧
    (Client.bufferedCompressGuard status respHdrs body.length = false →
      ∀ env', Client.bufferedCompressPhase env' reqHdrs status respHdrs body
        = (respHdrs, body)) := by
  refine ⟨rfl, ?_, ?_, ?_, ?_, ?_, ?_, ?_, ?_⟩
  · intro d ae h1
    simp [Client.compressBody, h1]
  · intro d ae h1 h2
    simp [Client.compressBody, h1, h2]
  · intro d ae h1 h2 h3
    simp [Client.compressBody, h1, h2, h3]
  · intro d ae h1 h2 h3
    simp [Client.compressBody, h1, h2, h3]
  · simp [Client.bufferedCompressGuard, Client.COMPRESS_THRESHOLD]
    tauto
  · intro hg c enc hc
    refine ⟨?_, ?_, ?_⟩
    · simp [Client.bufferedCompressPhase, hg, hc]
    · simp [Client.bufferedCompressPhase, hg, hc,
        lookupHeader_setHeader_ne _ "content-length" _ "content-encoding" (by decide),
        lookupHeader_setHeader_self]
    · simp [Client.bufferedCompressPhase, hg, hc, lookupHeader_setHeader_self]
  · intro hg hc
    simp [Client.bufferedCompressPhase, hg, hc]
  · intro hg env'
    simp [Client.bufferedCompressPhase, hg]

/-- The concrete codec environment used by the C6 witness. -/
def witnessEnv : Client.CompressEnv :=
  { zstd := fun _ _ => some [1, 2], br := fun _ => some [3],
    gzip := fun _ _ => some [4, 5, 6] }

/-- C6 witness: a 1024-byte compressible body is compressed (zstd wins over
br and gzip), a 1023-byte body is left untouched for any codec environment —
via `C6_buffered_compression`. -/
theorem C6_buffered_compression_witness :
    Client.bufferedCompressPhase witnessEnv [("accept-encoding", "gzip, br, zstd")] 200
        [("content-type", "text/html")] (List.replicate 1024 0) =
      ([("content-type", "text/html"), ("content-encoding", "zstd"),
        ("content-length", "2")], [1, 2]) ∧
    Client.bufferedCompressPhase witnessEnv [("accept-encoding", "gzip, br, zstd")] 200
        [("content-type", "text/html")] (List.replicate 1023 0) =
      ([("content-type", "text/html")], List.replicate 1023 0) := by
  have hg1024 : Client.bufferedCompressGuard 200 [("content-type", "text/html")]
      (List.replicate 1024 (0 : Nat)).length = true := by
    rw [List.length_replicate]; decide
  have hg1023 : Client.bufferedCompressGuard 200 [("content-type", "text/html")]
      (List.replicate 1023 (0 : Nat)).length = false := by
    rw [List.length_replicate]; decide
  constructor
  · have h := ((C6_buffered_compression witnessEnv [("accept-encoding", "gzip, br, zstd")]
      200 [("content-type", "text/html")] (List.replicate 1024 0)).2.2.2.2.2.2.1
      hg1024 [1, 2] "zstd" (by decide)).1
    have hhdr : setHeader (setHeader [("content-type", "text/html")] "content-encoding" "zstd")
        "content-length" (toString ([1, 2] : List Nat).length) =
        [("content-type", "text/html"), ("content-encoding", "zstd"),
         ("content-length", "2")] := by
      decide
    rw [h, hhdr]
  · exact (C6_buffered_compression witnessEnv [("accept-encoding", "gzip, br, zstd")]
      200 [("content-type", "text/html")] (List.replicate 1023 0)).2.2.2.2.2.2.2.2
      hg1023 witnessEnv

/-! ## C8: conditional GET short-circuit -/

/-- C8: in the client request handler, for a forwarded request carrying
`If-None-Match` whose loopback response has status 200 and an `ETag`: if the
two ETags are equal after stripping the weak prefix `W/` from both sides, the
client sends a single `http_response` with status 304, an empty body, and
headers restricted to `etag` plus `cache-control` and `vary` when present on
the loopback response; no compression or streaming is performed (the outcome
is the `notModified` message, not a classified mode). -/
theorem C8_etag_short_circuit (rid : String) (reqHeaders : Headers)
    (resp : Client.LocalResponse) (inm etg : String)
    (hinm : lookupHeader reqHeaders "if-none-match" = some inm) (hinm0 : inm ≠ "")
    (hetg : lookupHeader resp.headers "etag" = some etg) (hetg0 : etg ≠ "")
    (hst : resp.status = 200)
    (heq : Client.stripWeak inm = Client.stripWeak etg) :
    Client.handleLocalResponse rid reqHeaders resp =
      Client.HandleOutcome.notModified (ClientMsg.http_response rid 304
        (Client.notModifiedHeaders etg
          (lookupHeader resp.headers "cache-control")
          (lookupHeader resp.headers "vary")) "") := by
  have hnorm : Client.normalizeEtag inm = Client.normalizeEtag etg := by
    simp [Client.normalizeEtag, heq]
  simp [Client.handleLocalResponse, hinm, hetg, hst, truthy, hinm0, hetg0, hnorm]

/-- C8 witness: a weak loopback ETag `W/"abc"` matching a strong
`If-None-Match: "abc"` yields the synthesized 304 carrying only etag and
cache-control — via `C8_etag_short_circuit`. -/
theorem C8_etag_short_circuit_witness :
    Client.handleLocalResponse "r1" [("if-none-match", "\"abc\"")]
        ⟨200, [("etag", "W/\"abc\""), ("cache-control", "max-age=60")]⟩ =
      Client.HandleOutcome.notModified (ClientMsg.http_response "r1" 304
        [("etag", "W/\"abc\""), ("cache-control", "max-age=60")] "") := by
  have h := C8_etag_short_circuit "r1" [("if-none-match", "\"abc\"")]
    ⟨200, [("etag", "W/\"abc\""), ("cache-control", "max-age=60")]⟩
    "\"abc\"" "W/\"abc\"" rfl (by decide) rfl (by decide) rfl (by decide)
  simpa [Client.notModifiedHeaders] using h

end FastNgrok
